import Mathlib

/-!
Shallow embedding of the tool-calling agent (src/task/client.py, src/task/app.py,
src/task/tools/users/create_user_tool.py) and the data model they manipulate.

Python conventions mapped to Lean:
* a value that may be absent (`dict.get` without a default) is an `Option`;
* a computation that may raise is an `Except PyErr`; Python's in-place list
  mutation of the `messages` argument is explicit state passing (the function
  returns the final list alongside its result);
* Python's unbounded recursion in `get_completion` is fuel-indexed; running
  out of fuel is the artifact error `PyErr.outOfFuel` (Python would eventually
  raise RecursionError).

`json.loads` is Python standard-library code; it is modelled here by a small
recursive-descent parser `json_loads` covering JSON objects, arrays, strings
(without escape sequences), integers, booleans and null, which is the fragment
exercised by tool-call argument payloads.
-/

/-- Left and right curly brace characters, used by the JSON parser. -/
def lbrace : Char := Char.ofNat 123

/-- Right curly brace character. -/
def rbrace : Char := Char.ofNat 125

/-- JSON values, the result type of the modelled `json.loads`. -/
inductive JValue where
  | null : JValue
  | bool (b : Bool) : JValue
  | int (n : Int) : JValue
  | str (s : String) : JValue
  | arr (elems : List JValue) : JValue
  | obj (fields : List (String × JValue)) : JValue

/-- Skip JSON whitespace. -/
def skipWs : List Char → List Char
  | [] => []
  | c :: cs => if c = ' ' ∨ c = '\t' ∨ c = '\n' ∨ c = '\r' then skipWs cs else c :: cs

/-- Parse the body of a JSON string literal (opening quote already consumed);
escape sequences are out of the modelled fragment and fail the parse. -/
def parseStringBody : List Char → Option (String × List Char)
  | [] => none
  | c :: cs =>
    if c = '"' then some ("", cs)
    else if c = '\\' then none
    else
      match parseStringBody cs with
      | some (s, rest) => some (String.singleton c ++ s, rest)
      | none => none

/-- Take a maximal run of decimal digits. -/
def takeDigits : List Char → List Char × List Char
  | [] => ([], [])
  | c :: cs =>
    if c.isDigit then
      let p := takeDigits cs
      (c :: p.1, p.2)
    else ([], c :: cs)

/-- Value of a run of decimal digits. -/
def digitsToNat (ds : List Char) : Nat :=
  ds.foldl (fun n c => n * 10 + (c.toNat - 48)) 0

mutual

/-- Parse one JSON value; `fuel` bounds nesting depth. -/
def parseValue : Nat → List Char → Option (JValue × List Char)
  | 0, _ => none
  | fuel + 1, s =>
    match skipWs s with
    | [] => none
    | c :: cs =>
      if c = '"' then
        match parseStringBody cs with
        | some (lit, rest) => some (.str lit, rest)
        | none => none
      else if c = lbrace then
        match skipWs cs with
        | [] => none
        | c2 :: cs2 =>
          if c2 = rbrace then some (.obj [], cs2)
          else
            match parseMembers fuel (c2 :: cs2) with
            | some (fields, rest) => some (.obj fields, rest)
            | none => none
      else if c = '[' then
        match skipWs cs with
        | [] => none
        | c2 :: cs2 =>
          if c2 = ']' then some (.arr [], cs2)
          else
            match parseElems fuel (c2 :: cs2) with
            | some (elems, rest) => some (.arr elems, rest)
            | none => none
      else if c = '-' then
        match takeDigits cs with
        | ([], _) => none
        | (ds, rest) => some (.int (-(digitsToNat ds : Int)), rest)
      else if c.isDigit then
        match takeDigits (c :: cs) with
        | (ds, rest) => some (.int (digitsToNat ds : Int), rest)
      else if "true".data.isPrefixOf (c :: cs) then some (.bool true, (c :: cs).drop 4)
      else if "false".data.isPrefixOf (c :: cs) then some (.bool false, (c :: cs).drop 5)
      else if "null".data.isPrefixOf (c :: cs) then some (.null, (c :: cs).drop 4)
      else none

/-- Parse a non-empty member list of a JSON object, consuming the closing brace. -/
def parseMembers : Nat → List Char → Option (List (String × JValue) × List Char)
  | 0, _ => none
  | fuel + 1, s =>
    match skipWs s with
    | '"' :: cs =>
      match parseStringBody cs with
      | none => none
      | some (key, rest) =>
        match skipWs rest with
        | ':' :: rest2 =>
          match parseValue fuel rest2 with
          | none => none
          | some (v, rest3) =>
            match skipWs rest3 with
            | [] => none
            | c :: rest4 =>
              if c = ',' then
                match parseMembers fuel rest4 with
                | some (fields, rest5) => some ((key, v) :: fields, rest5)
                | none => none
              else if c = rbrace then some ([(key, v)], rest4)
              else none
        | _ => none
    | _ => none

/-- Parse a non-empty element list of a JSON array, consuming the closing bracket. -/
def parseElems : Nat → List Char → Option (List JValue × List Char)
  | 0, _ => none
  | fuel + 1, s =>
    match parseValue fuel s with
    | none => none
    | some (v, rest) =>
      match skipWs rest with
      | ',' :: rest2 =>
        match parseElems fuel rest2 with
        | some (vs, rest3) => some (v :: vs, rest3)
        | none => none
      | ']' :: rest2 => some ([v], rest2)
      | _ => none

end

/-- Model of Python's `json.loads`: parse a whole string as one JSON value;
a failure models the `json.JSONDecodeError` raised by the standard library. -/
def json_loads (s : String) : Except String JValue :=
  match parseValue (s.length + 1) s.data with
  | none => .error "Expecting value"
  | some (v, rest) =>
    if (skipWs rest).isEmpty then .ok v else .error "Extra data"

/-- Message roles. Modelled from the spec: `task/models/role.py` is missing from
src/; the members used by src are Role.SYSTEM, Role.USER, Role.AI, Role.TOOL
(spec section 3: role is one of system, user, assistant, tool). -/
inductive Role where
  | system : Role
  | user : Role
  | ai : Role
  | tool : Role
deriving DecidableEq, Repr

/-- The `function` member of a tool-call request
(`{name, arguments: <JSON string>}`, spec section 6); fields read with
`dict.get` in client.py, hence `Option`. -/
structure ToolCallFunction where
  name : Option String := none
  arguments : Option String := none
deriving DecidableEq, Repr

/-- A tool-call request from the model: `{id, function}` (spec section 6,
consumed in `DialClient._process_tool_calls`). -/
structure ToolCall where
  id : Option String := none
  function : Option ToolCallFunction := none
deriving DecidableEq, Repr

/-- Chat message. Modelled from the spec: `task/models/message.py` is missing
from src/; fields are those used by client.py's constructor calls and the
spec's data model (section 3). `content` is the empty string when the payload
carried none. -/
structure Message where
  role : Role
  content : String := ""
  tool_calls : Option (List ToolCall) := none
  tool_call_id : Option String := none
  name : Option String := none
deriving DecidableEq, Repr

/-- A registered tool capability: `BaseTool` (task/tools/base.py, missing from
src/) exposes `name` and `execute(arguments) -> str`. Modelled from the spec:
each tool is a function from an argument mapping to a string result, never
throwing past its own boundary (spec section 4.3), hence `execute` is total. -/
structure Tool where
  name : String
  execute : JValue → String

/-- Python exceptions that the modelled code can raise. `outOfFuel` is an
artifact of fuel-indexing the unbounded recursion in `get_completion`. -/
inductive PyErr where
  | jsonDecodeError (msg : String) : PyErr
  | apiError (status : Nat) (text : String) : PyErr
  | typeError (msg : String) : PyErr
  | outOfFuel : PyErr
deriving DecidableEq, Repr

/-- Python `str(x)` on an optional string: `None` prints as "None". -/
def pyStr : Option String → String
  | none => "None"
  | some s => s

/-- Lookup in `self.__tools_dict` (a name-keyed dict): `function_name in
self.__tools_dict` followed by `self.__tools_dict[function_name]`. The dict is
modelled as an association list; client.py is only ever given distinct names. A
`none` function name is never a dict key. -/
def toolsLookup (tools_dict : List (String × Tool)) : Option String → Option Tool
  | none => none
  | some n => (tools_dict.find? (fun p => p.1 = n)).map (fun p => p.2)

/-- `DialClient._call_tool` (client.py lines 205-223): execute the named tool,
or return an "Unknown function" string when the name is not registered. -/
def _call_tool (tools_dict : List (String × Tool)) (function_name : Option String)
    (arguments : JValue) : String :=
  match toolsLookup tools_dict function_name with
  | some tool => tool.execute arguments
  | none => "Unknown function: " ++ pyStr function_name

/-- The serialized-arguments string of a tool call:
`function = tool_call.get("function", {})`, then
`arguments_str = function.get("arguments", "\x7b\x7d")` (client.py lines 177-183). -/
def argumentsStr (tool_call : ToolCall) : String :=
  ((tool_call.function.getD {}).arguments).getD "\x7b\x7d"

/-- `DialClient._process_tool_calls` (client.py lines 159-203): for each
requested call, parse the JSON argument string with `json.loads` (unguarded:
a parse failure raises and aborts the whole batch), dispatch via `_call_tool`,
and wrap the string result in a tool-result message carrying the request's id
and function name. -/
def _process_tool_calls (tools_dict : List (String × Tool)) :
    List ToolCall → Except PyErr (List Message)
  | [] => .ok []
  | tool_call :: rest =>
    let tool_call_id := tool_call.id
    let function := tool_call.function.getD {}
    let function_name := function.name
    match json_loads (argumentsStr tool_call) with
    | .error e => .error (.jsonDecodeError e)
    | .ok arguments =>
      let tool_execution_result := _call_tool tools_dict function_name arguments
      let tool_message : Message :=
        { role := .tool
          name := function_name
          tool_call_id := tool_call_id
          content := tool_execution_result }
      match _process_tool_calls tools_dict rest with
      | .error e => .error e
      | .ok tool_messages => .ok (tool_message :: tool_messages)

/-- The `message` object of a completion choice:
`{content, tool_calls?}` read with `dict.get` in client.py lines 119-125. -/
structure MessageData where
  content : Option String := none
  tool_calls : Option (List ToolCall) := none
deriving DecidableEq, Repr

/-- One element of the response's `choices` array:
`{finish_reason, message}` (client.py lines 109-135). -/
structure Choice where
  finish_reason : Option String := none
  message : MessageData := {}
deriving DecidableEq, Repr

/-- The HTTP response of the completion endpoint as client.py consumes it:
`status_code`, `text`, and the parsed body's `choices` array
(`response_json.get("choices", [])`; an absent array collapses to `[]`). -/
structure HttpResponse where
  status_code : Nat
  text : String := ""
  choices : List Choice := []
deriving DecidableEq, Repr

/-- `DialClient.get_completion` (client.py lines 65-156). The remote endpoint
is the oracle `endpoint` from the serialized conversation to a response; the
in-place mutation of the caller's `messages` list is returned explicitly as the
first component. On a 200 response the first choice is read (or `{}` when
`choices` is empty); on finish_reason "tool_calls" the assistant message is
appended, the tool results are appended, and the function recurses on the
extended conversation; otherwise the assistant message is returned without any
append. A non-200 response raises. Iterating `tool_calls` when it is `None`
raises TypeError, as in Python. -/
def get_completion (tools_dict : List (String × Tool))
    (endpoint : List Message → HttpResponse) :
    Nat → List Message → List Message × Except PyErr Message
  | 0, messages => (messages, .error .outOfFuel)
  | fuel + 1, messages =>
    let response := endpoint messages
    if response.status_code = 200 then
      let choices := response.choices
      let choice := choices.headD {}
      let message_data := choice.message
      let content := message_data.content.getD ""
      let tool_calls := message_data.tool_calls
      let ai_response : Message := { role := .ai, content := content, tool_calls := tool_calls }
      if choice.finish_reason = some "tool_calls" then
        let messages1 := messages ++ [ai_response]
        match tool_calls with
        | none => (messages1, .error (.typeError "NoneType object is not iterable"))
        | some tcs =>
          match _process_tool_calls tools_dict tcs with
          | .error e => (messages1, .error e)
          | .ok tool_messages =>
            get_completion tools_dict endpoint fuel (messages1 ++ tool_messages)
      else
        (messages, .ok ai_response)
    else
      (messages, .error (.apiError response.status_code response.text))

/-- Boolean substring test on character lists: some suffix of the haystack
starts with the needle. -/
def hasSubList (needle : List Char) : List Char → Bool
  | [] => needle.isEmpty
  | c :: cs => needle.isPrefixOf (c :: cs) || hasSubList needle cs

/-- `needle` occurs as a contiguous substring of `haystack`. -/
def strMentions (haystack needle : String) : Bool :=
  hasSubList needle.data haystack.data

/-- Required fields of the user-creation payload. Modelled from the spec:
`task/tools/users/models/user_info.py` (the Pydantic `UserCreate` model) is
missing from src/; the required fields are name, surname, email, about_me
(spec section 6 and create_user_tool.py's schema docstring). -/
def userCreateRequired : List String := ["name", "surname", "email", "about_me"]

/-- Error text listing the missing required fields, one per entry. -/
def missingFieldsMsg : List String → String
  | [] => ""
  | k :: ks => "Field required: " ++ k ++ "; " ++ missingFieldsMsg ks

/-- Pydantic validation of the user-creation payload. Modelled from the spec:
`UserCreate.model_validate` checks that every required field is present and
raises a ValueError naming the missing fields otherwise (spec sections 4.3 and
8: "returns an error string mentioning the missing fields"). Non-mapping input
is likewise a validation error. -/
def userCreateValidate : JValue → Except String (List (String × JValue))
  | .obj fields =>
    let missing := userCreateRequired.filter (fun k => (fields.find? (fun p => p.1 = k)).isNone)
    if missing.isEmpty then .ok fields
    else .error (missingFieldsMsg missing)
  | _ => .error "Input should be a valid dictionary"

/-- Downstream user-data service call. Modelled from the spec:
`task/tools/users/user_client.py` is missing from src/; `add_user` posts the
validated record and returns a success string (spec section 6). Its exact
text is irrelevant to the claims; what matters is whether it is invoked. -/
def user_client_add_user (_user : List (String × JValue)) : String :=
  "User created successfully"

/-- Result of one `CreateUserTool.execute` run: the returned string plus
whether the downstream user-data service was called (the observable side
effect of `self._user_client.add_user`). -/
structure CreateResult where
  result : String
  service_called : Bool
deriving DecidableEq, Repr

/-- `CreateUserTool.execute` (create_user_tool.py lines 55-116): validate the
arguments with the Pydantic model; on success call the user service and return
its message; a validation ValueError is caught and rendered as
"Error: Invalid user data - ..."; any other exception is caught and rendered as
"Error while creating a new user: ..." (the modelled service is total, so that
branch is unreachable here). -/
def create_user_execute (arguments : JValue) : CreateResult :=
  match userCreateValidate arguments with
  | .ok user_create_model =>
    { result := user_client_add_user user_create_model, service_called := true }
  | .error e =>
    { result := "Error: Invalid user data - " ++ e, service_called := false }

/-- Python `str.strip()`: drop leading and trailing whitespace. -/
def pyStrip (s : String) : String :=
  String.mk (((s.data.dropWhile Char.isWhitespace).reverse.dropWhile Char.isWhitespace).reverse)

/-- Python `str.lower()` (ASCII case folding suffices for the exit keywords). -/
def pyLower (s : String) : String :=
  String.mk (s.data.map Char.toLower)

/-- The driver's case-insensitive exit keywords (app.py line 94). -/
def exitKeywords : List String := ["exit", "quit", "bye", "stop"]

/-- Observable outcome of one iteration of the driver's `while True` loop. -/
inductive StepAction where
  | exitLoop : StepAction
  | reprompt : StepAction
  | replied (conversation : List Message) (displayed : String) : StepAction
  | errored (conversation : List Message) (error_text : String) : StepAction
deriving DecidableEq, Repr

/-- Display text for a caught exception (`str(e)` in app.py line 131). -/
def pyErrStr : PyErr → String
  | .jsonDecodeError msg => msg
  | .apiError status text => "API request failed with status " ++ toString status ++ ": " ++ text
  | .typeError msg => msg
  | .outOfFuel => "maximum recursion depth exceeded"

/-- One iteration of `main`'s interactive loop (app.py lines 88-132) given the
line read from stdin. The completion client is the oracle `client`; it returns
the conversation as mutated by its internal appends together with either the
assistant message or the exception it raised. The Conversation object (missing
from src/) is modelled from the spec as the ordered message list with
`add_message` appending and `get_messages` returning the live list (spec
section 3). An exception from the client is caught, displayed and the loop
continues (the `errored` outcome). -/
def main_loop_step (client : List Message → List Message × Except PyErr Message)
    (conversation : List Message) (raw_input : String) : StepAction :=
  let user_input := pyStrip raw_input
  if exitKeywords.contains (pyLower user_input) then .exitLoop
  else if user_input = "" then .reprompt
  else
    let user_message : Message := { role := .user, content := user_input }
    let conversation1 := conversation ++ [user_message]
    match client conversation1 with
    | (conversation2, .ok ai_response) =>
      .replied (conversation2 ++ [ai_response]) ai_response.content
    | (conversation2, .error e) => .errored conversation2 (pyErrStr e)

/-- Truthiness of the `DIAL_API_KEY` environment lookup: `os.getenv` yields
`None` when the variable is absent, and `not API_KEY` is also true for the
empty string. -/
def apiKeyTruthy : Option String → Bool
  | none => false
  | some s => !(s = "")

/-- The `__main__` guard (app.py lines 135-144): exit with status 1 when the
API key is missing, otherwise run `main`. `.error code` is a process exit with
that status. -/
def dunder_main (api_key : Option String) : Except Nat Unit :=
  if apiKeyTruthy api_key then .ok () else .error 1

/-! Concrete scenario inputs used to instantiate the theorems below. -/

/-- A plain "stop" response with content "Hello" (spec section 8 scenario). -/
def stopResponse : HttpResponse :=
  { status_code := 200
    choices := [{ finish_reason := some "stop", message := { content := some "Hello" } }] }

/-- An endpoint that always answers with `stopResponse`. -/
def stopEndpoint : List Message → HttpResponse := fun _ => stopResponse

/-- A registry tool returning a fixed lookup result (spec section 8 scenario). -/
def getUserTool : Tool :=
  { name := "get_user_by_id", execute := fun _ => "User 42: Jane" }

/-- A one-tool registry dict. -/
def toolsDict0 : List (String × Tool) := [("get_user_by_id", getUserTool)]

/-- The scenario tool call: id "1", name "get_user_by_id", arguments
`\x7b"id": 42\x7d`. -/
def toolCall1 : ToolCall :=
  { id := some "1"
    function := some { name := some "get_user_by_id", arguments := some "\x7b\"id\": 42\x7d" } }

/-- A response requesting exactly the scenario tool call. -/
def toolCallResponse : HttpResponse :=
  { status_code := 200
    choices := [{ finish_reason := some "tool_calls"
                  message := { content := some "", tool_calls := some [toolCall1] } }] }

/-- An endpoint that requests the tool call on the first turn and stops after. -/
def scenarioEndpoint : List Message → HttpResponse :=
  fun messages => if messages.length ≤ 1 then toolCallResponse else stopResponse

/-- A failing endpoint: status 500. -/
def failEndpoint : List Message → HttpResponse :=
  fun _ => { status_code := 500, text := "Internal Server Error" }

/-- A 200 response whose `choices` array is empty. -/
def emptyChoicesEndpoint : List Message → HttpResponse :=
  fun _ => { status_code := 200, choices := [] }

/-- A tool call whose arguments string is not valid JSON. -/
def badToolCall : ToolCall :=
  { id := some "1"
    function := some { name := some "get_user_by_id", arguments := some "not json" } }

/-- A second tool call naming an unregistered tool. -/
def toolCall2 : ToolCall := { id := some "2", function := some { name := some "nope" } }

/-- A two-call batch: the scenario call then the unregistered one. -/
def batch2 : List ToolCall := [toolCall1, toolCall2]

/-- The tool-result messages `_process_tool_calls` produces for `batch2`. -/
def batch2Messages : List Message :=
  [{ role := .tool, content := "User 42: Jane"
     tool_call_id := some "1", name := some "get_user_by_id" },
   { role := .tool, content := "Unknown function: nope"
     tool_call_id := some "2", name := some "nope" }]

/-- A completion client (as the driver sees one) that always succeeds. -/
def okClient : List Message → List Message × Except PyErr Message :=
  fun messages => (messages, .ok { role := .ai, content := "Hello" })

/-- A completion client that always raises an API error. -/
def errClient : List Message → List Message × Except PyErr Message :=
  fun messages => (messages, .error (.apiError 500 "Internal Server Error"))

/-! Helper lemmas about the substring test. -/

theorem isPrefixOf_append_self (n rest : List Char) : n.isPrefixOf (n ++ rest) = true := by
  induction n with
  | nil => cases rest <;> rfl
  | cons a as ih =>
    show (a == a && as.isPrefixOf (as ++ rest)) = true
    simp [ih]

theorem hasSubList_append_self (n rest : List Char) : hasSubList n (n ++ rest) = true := by
  cases n with
  | nil =>
    cases rest with
    | nil => rfl
    | cons c cs => simp [hasSubList, List.isPrefixOf]
  | cons a as =>
    show ((a :: as).isPrefixOf ((a :: as) ++ rest) || hasSubList (a :: as) (as ++ rest)) = true
    rw [isPrefixOf_append_self]
    simp

theorem hasSubList_append_left (n ys : List Char) (h : hasSubList n ys = true) :
    ∀ x : List Char, hasSubList n (x ++ ys) = true := by
  intro x
  induction x with
  | nil => simpa using h
  | cons c cs ih =>
    show (n.isPrefixOf ((c :: cs) ++ ys) || hasSubList n (cs ++ ys)) = true
    rw [ih]
    simp

theorem strMentions_append_right (s t n : String) (h : strMentions t n = true) :
    strMentions (s ++ t) n = true := by
  unfold strMentions at h ⊢
  rw [String.data_append]
  exact hasSubList_append_left n.data t.data h s.data

theorem strMentions_append_self (n t : String) : strMentions (n ++ t) n = true := by
  unfold strMentions
  rw [String.data_append]
  exact hasSubList_append_self n.data t.data

theorem mentions_missingFieldsMsg (l : List String) (k : String) (hk : k ∈ l) :
    strMentions (missingFieldsMsg l) k = true := by
  induction l with
  | nil => cases hk
  | cons a as ih =>
    rcases List.mem_cons.mp hk with h | h
    · subst h
      show strMentions ("Field required: " ++ k ++ "; " ++ missingFieldsMsg as) k = true
      rw [show "Field required: " ++ k ++ "; " ++ missingFieldsMsg as =
            "Field required: " ++ (k ++ ("; " ++ missingFieldsMsg as)) by
        simp [String.append_assoc]]
      exact strMentions_append_right _ _ _ (strMentions_append_self k _)
    · show strMentions ("Field required: " ++ a ++ "; " ++ missingFieldsMsg as) k = true
      rw [show "Field required: " ++ a ++ "; " ++ missingFieldsMsg as =
            ("Field required: " ++ a ++ "; ") ++ missingFieldsMsg as by
        simp [String.append_assoc]]
      exact strMentions_append_right _ _ _ (ih h)

/-- C2: when the response's finish reason is not "tool_calls", `get_completion`
returns an assistant Message built from the response's content and appends
nothing to the caller's message list: the list after the call equals the list
before it. -/
theorem get_completion_no_tools_returns_unchanged
    (tools_dict : List (String × Tool)) (endpoint : List Message → HttpResponse)
    (fuel : Nat) (messages : List Message) (response : HttpResponse)
    (hresp : endpoint messages = response)
    (hstatus : response.status_code = 200)
    (hfin : (response.choices.headD {}).finish_reason ≠ some "tool_calls") :
    get_completion tools_dict endpoint (fuel + 1) messages =
      (messages,
       .ok { role := .ai
             content := ((response.choices.headD {}).message.content).getD ""
             tool_calls := (response.choices.headD {}).message.tool_calls }) := by
  unfold get_completion
  rw [hresp]
  rw [if_pos hstatus, if_neg hfin]

/-- C2 witness: a "stop" response with content "Hello" yields the assistant
message "Hello" and leaves the conversation (here a single user message)
unchanged. -/
theorem get_completion_no_tools_returns_unchanged_witness :
    get_completion [] stopEndpoint 1 [{ role := .user, content := "Hi" }] =
      ([{ role := .user, content := "Hi" }],
       .ok { role := .ai, content := "Hello", tool_calls := none }) :=
  get_completion_no_tools_returns_unchanged [] stopEndpoint 0
    [{ role := .user, content := "Hi" }] stopResponse rfl rfl (by decide)

/-- C10: a 200 response with an empty (or missing) `choices` array does not
raise: the choice is treated as the empty object and `get_completion` returns
an assistant Message with empty content and no tool calls, appending nothing
to the conversation. -/
theorem get_completion_empty_choices
    (tools_dict : List (String × Tool)) (endpoint : List Message → HttpResponse)
    (fuel : Nat) (messages : List Message) (response : HttpResponse)
    (hresp : endpoint messages = response)
    (hstatus : response.status_code = 200)
    (hchoices : response.choices = []) :
    get_completion tools_dict endpoint (fuel + 1) messages =
      (messages, .ok { role := .ai, content := "", tool_calls := none }) := by
  unfold get_completion
  rw [hresp]
  rw [if_pos hstatus]
  rw [hchoices]
  rfl

/-- C10 witness: the empty-choices endpoint at a concrete conversation. -/
theorem get_completion_empty_choices_witness :
    get_completion [] emptyChoicesEndpoint 1 [{ role := .user, content := "Hi" }] =
      ([{ role := .user, content := "Hi" }],
       .ok { role := .ai, content := "", tool_calls := none }) :=
  get_completion_empty_choices [] emptyChoicesEndpoint 0
    [{ role := .user, content := "Hi" }] { status_code := 200, choices := [] } rfl rfl rfl

/-- C5: a non-200 endpoint response makes `get_completion` raise (the error is
returned to the caller, no retry), and the caller's message list is unmodified:
the conversation after the failed call equals the conversation before it. -/
theorem get_completion_api_error
    (tools_dict : List (String × Tool)) (endpoint : List Message → HttpResponse)
    (fuel : Nat) (messages : List Message) (response : HttpResponse)
    (hresp : endpoint messages = response)
    (hstatus : response.status_code ≠ 200) :
    get_completion tools_dict endpoint (fuel + 1) messages =
      (messages, .error (.apiError response.status_code response.text)) := by
  unfold get_completion
  rw [hresp]
  rw [if_neg hstatus]

/-- C5 witness: a 500 response at a concrete conversation raises and leaves
the conversation unchanged. -/
theorem get_completion_api_error_witness :
    get_completion [] failEndpoint 1 [{ role := .user, content := "Hi" }] =
      ([{ role := .user, content := "Hi" }],
       .error (.apiError 500 "Internal Server Error")) :=
  get_completion_api_error [] failEndpoint 0 [{ role := .user, content := "Hi" }]
    { status_code := 500, text := "Internal Server Error" } rfl (by decide)

/-- C4: when the finish reason is "tool_calls", `get_completion` appends the
assistant message carrying the tool calls, then the tool-result messages
produced by `_process_tool_calls` (in request order), and recurses on the
extended conversation — so the next request payload (the argument of the next
`endpoint` application) contains those tool-result messages. -/
theorem get_completion_tool_calls_step
    (tools_dict : List (String × Tool)) (endpoint : List Message → HttpResponse)
    (fuel : Nat) (messages : List Message) (response : HttpResponse)
    (hresp : endpoint messages = response)
    (hstatus : response.status_code = 200)
    (hfin : (response.choices.headD {}).finish_reason = some "tool_calls")
    (tcs : List ToolCall)
    (htcs : (response.choices.headD {}).message.tool_calls = some tcs)
    (tool_messages : List Message)
    (hproc : _process_tool_calls tools_dict tcs = .ok tool_messages) :
    get_completion tools_dict endpoint (fuel + 1) messages =
      get_completion tools_dict endpoint fuel
        ((messages ++
          [{ role := .ai
             content := ((response.choices.headD {}).message.content).getD ""
             tool_calls := some tcs }]) ++ tool_messages) := by
  conv_lhs => unfold get_completion
  rw [hresp, if_pos hstatus, if_pos hfin, htcs]
  simp only [hproc]

/-- C4 witness: the spec scenario — the model requests the call id "1",
name "get_user_by_id", arguments `\x7b"id": 42\x7d`; the registry's tool
returns "User 42: Jane"; the recursion continues on the conversation extended
with the assistant message and the tool-result message with tool_call_id "1",
name "get_user_by_id", content "User 42: Jane". -/
theorem get_completion_tool_calls_step_witness :
    get_completion toolsDict0 scenarioEndpoint 2 [{ role := .user, content := "Hi" }] =
      get_completion toolsDict0 scenarioEndpoint 1
        (([{ role := .user, content := "Hi" }] ++
          [{ role := .ai, content := "", tool_calls := some [toolCall1] }]) ++
         [{ role := .tool
            content := "User 42: Jane"
            tool_call_id := some "1"
            name := some "get_user_by_id" }]) :=
  get_completion_tool_calls_step toolsDict0 scenarioEndpoint 1
    [{ role := .user, content := "Hi" }] toolCallResponse rfl rfl rfl
    [toolCall1] rfl
    [{ role := .tool
       content := "User 42: Jane"
       tool_call_id := some "1"
       name := some "get_user_by_id" }] rfl

/-- C3: when `_process_tool_calls` completes, its result list has the same
length as the batch and preserves its order: the i-th result message carries
role tool, the tool_call_id of the i-th request, and its function name. -/
theorem process_tool_calls_order
    (tools_dict : List (String × Tool)) (tool_calls : List ToolCall)
    (tool_messages : List Message)
    (h : _process_tool_calls tools_dict tool_calls = .ok tool_messages) :
    tool_messages.length = tool_calls.length ∧
    ∀ i, i < tool_calls.length →
      ∃ m tc, tool_messages[i]? = some m ∧ tool_calls[i]? = some tc ∧
        m.role = .tool ∧ m.tool_call_id = tc.id ∧ m.name = (tc.function.getD {}).name := by
  induction tool_calls generalizing tool_messages with
  | nil =>
    simp only [_process_tool_calls, Except.ok.injEq] at h
    subst h
    exact ⟨rfl, fun i hi => absurd hi (by simp)⟩
  | cons tc rest ih =>
    simp only [_process_tool_calls] at h
    cases hjson : json_loads (argumentsStr tc) with
    | error e => rw [hjson] at h; cases h
    | ok arguments =>
      rw [hjson] at h
      cases hrest : _process_tool_calls tools_dict rest with
      | error e => rw [hrest] at h; cases h
      | ok msgs =>
        rw [hrest] at h
        simp only [Except.ok.injEq] at h
        subst h
        obtain ⟨hlen, hidx⟩ := ih msgs hrest
        refine ⟨by simp [hlen], ?_⟩
        intro i hi
        cases i with
        | zero =>
          refine ⟨_, tc, List.getElem?_cons_zero, List.getElem?_cons_zero, rfl, rfl, rfl⟩
        | succ j =>
          have hj : j < rest.length := by simpa using hi
          obtain ⟨m, tc', h1, h2, h3⟩ := hidx j hj
          exact ⟨m, tc', by simpa using h1, by simpa using h2, h3⟩

/-- C3 witness: a two-call batch (the scenario call and a call to an
unregistered tool) yields two result messages in request order with matching
ids and names. -/
theorem process_tool_calls_order_witness :
    (_process_tool_calls toolsDict0 batch2 = .ok batch2Messages) ∧
    (batch2Messages.length = batch2.length ∧
     ∀ i, i < batch2.length →
      ∃ m tc, batch2Messages[i]? = some m ∧ batch2[i]? = some tc ∧
        m.role = .tool ∧ m.tool_call_id = tc.id ∧ m.name = (tc.function.getD {}).name) :=
  ⟨rfl, process_tool_calls_order toolsDict0 batch2 batch2Messages rfl⟩

/-- C6: `_call_tool` is total (dispatch never raises); an unregistered name
yields a string containing "Unknown function", and a registered name yields
the registered tool's string result. -/
theorem call_tool_dispatch
    (tools_dict : List (String × Tool)) (function_name : Option String)
    (arguments : JValue) :
    (∀ tool, toolsLookup tools_dict function_name = some tool →
      _call_tool tools_dict function_name arguments = tool.execute arguments) ∧
    (toolsLookup tools_dict function_name = none →
      _call_tool tools_dict function_name arguments =
        "Unknown function: " ++ pyStr function_name ∧
      strMentions (_call_tool tools_dict function_name arguments) "Unknown function" = true) := by
  constructor
  · intro tool hlook
    unfold _call_tool
    rw [hlook]
  · intro hlook
    have hres : _call_tool tools_dict function_name arguments =
        "Unknown function: " ++ pyStr function_name := by
      unfold _call_tool
      rw [hlook]
    refine ⟨hres, ?_⟩
    rw [hres]
    rw [show "Unknown function: " ++ pyStr function_name =
          "Unknown function" ++ (": " ++ pyStr function_name) by
      rw [← String.append_assoc]; rfl]
    exact strMentions_append_self "Unknown function" _

/-- C6 witness: dispatching the unregistered name "nope" returns the
"Unknown function: nope" string (which mentions "Unknown function"), and
dispatching the registered name runs the tool. -/
theorem call_tool_dispatch_witness :
    (_call_tool toolsDict0 (some "nope") (.obj []) = "Unknown function: nope" ∧
     strMentions (_call_tool toolsDict0 (some "nope") (.obj [])) "Unknown function" = true) ∧
    _call_tool toolsDict0 (some "get_user_by_id") (.obj []) = "User 42: Jane" :=
  ⟨(call_tool_dispatch toolsDict0 (some "nope") (.obj [])).2 rfl,
   (call_tool_dispatch toolsDict0 (some "get_user_by_id") (.obj [])).1 getUserTool rfl⟩

/-- C1 counterexample: the batch holding the single call whose arguments
string "not json" is not valid JSON makes `_process_tool_calls` raise (the
`json.loads` failure is not caught: client.py line 184 has no try/except), so
processing does not return a tool-result message list, contrary to the claim. -/
theorem process_tool_calls_bad_json_raises :
    json_loads (argumentsStr badToolCall) = .error "Expecting value" ∧
    _process_tool_calls toolsDict0 [badToolCall] =
      .error (.jsonDecodeError "Expecting value") ∧
    (_process_tool_calls toolsDict0 [badToolCall]).isOk = false :=
  ⟨rfl, rfl, rfl⟩

/-- C1 amended: a tool-call request whose arguments field is not valid JSON
makes `_process_tool_calls` raise the JSON parse error: the batch produces no
tool-result messages and the error propagates out of the completion loop (the
interactive driver then catches and displays it — see the C9 theorem). -/
theorem process_tool_calls_bad_json_propagates
    (tools_dict : List (String × Tool)) (tool_calls : List ToolCall)
    (tc : ToolCall) (e : String)
    (hmem : tc ∈ tool_calls)
    (hbad : json_loads (argumentsStr tc) = .error e) :
    ∃ msg, _process_tool_calls tools_dict tool_calls = .error (.jsonDecodeError msg) := by
  induction tool_calls with
  | nil => cases hmem
  | cons a rest ih =>
    rcases List.mem_cons.mp hmem with h | h
    · subst h
      exact ⟨e, by simp only [_process_tool_calls, hbad]⟩
    · cases hja : json_loads (argumentsStr a) with
      | error e' => exact ⟨e', by simp only [_process_tool_calls, hja]⟩
      | ok arguments =>
        obtain ⟨msg, hrest⟩ := ih h
        exact ⟨msg, by simp only [_process_tool_calls, hja, hrest]⟩

/-- C1 amended witness: the concrete bad batch propagates the parse error. -/
theorem process_tool_calls_bad_json_propagates_witness :
    ∃ msg, _process_tool_calls toolsDict0 [badToolCall] =
      .error (.jsonDecodeError msg) :=
  process_tool_calls_bad_json_propagates toolsDict0 [badToolCall] badToolCall
    "Expecting value" (List.mem_singleton.mpr rfl) rfl

/-- C7: an argument mapping missing a required field of
{name, surname, email, about_me} makes `CreateUserTool.execute` return an
error string that mentions the missing field, without calling the downstream
user-data service; execute is total (never raises past its boundary). -/
theorem create_user_missing_field
    (fields : List (String × JValue)) (k : String)
    (hreq : k ∈ userCreateRequired)
    (hmiss : (fields.find? (fun p => p.1 = k)).isNone = true) :
    (create_user_execute (.obj fields)).service_called = false ∧
    strMentions (create_user_execute (.obj fields)).result k = true ∧
    strMentions (create_user_execute (.obj fields)).result "Error" = true := by
  have hkmem : k ∈ userCreateRequired.filter
      (fun k => (fields.find? (fun p => p.1 = k)).isNone) :=
    List.mem_filter.mpr ⟨hreq, hmiss⟩
  have hne : (userCreateRequired.filter
      (fun k => (fields.find? (fun p => p.1 = k)).isNone)).isEmpty = false := by
    cases hfil : userCreateRequired.filter
        (fun k => (fields.find? (fun p => p.1 = k)).isNone) with
    | nil => rw [hfil] at hkmem; cases hkmem
    | cons a as => rfl
  have hexec : create_user_execute (.obj fields) =
      { result := "Error: Invalid user data - " ++
          missingFieldsMsg (userCreateRequired.filter
            (fun k => (fields.find? (fun p => p.1 = k)).isNone))
        service_called := false } := by
    simp only [create_user_execute, userCreateValidate]
    rw [hne]
    rfl
  rw [hexec]
  refine ⟨rfl, ?_, ?_⟩
  · exact strMentions_append_right _ _ _ (mentions_missingFieldsMsg _ k hkmem)
  · rw [show ("Error: Invalid user data - " ++
          missingFieldsMsg (userCreateRequired.filter
            (fun k => (fields.find? (fun p => p.1 = k)).isNone))) =
        "Error" ++ (": Invalid user data - " ++
          missingFieldsMsg (userCreateRequired.filter
            (fun k => (fields.find? (fun p => p.1 = k)).isNone))) by
      rw [← String.append_assoc]; rfl]
    exact strMentions_append_self "Error" _

/-- C7 witness: the spec scenario `\x7b"name": "A"\x7d` — the missing field
"surname" is mentioned in the error string and the service is not called. -/
theorem create_user_missing_field_witness :
    (create_user_execute (.obj [("name", .str "A")])).service_called = false ∧
    strMentions (create_user_execute (.obj [("name", .str "A")])).result "surname" = true ∧
    strMentions (create_user_execute (.obj [("name", .str "A")])).result "Error" = true :=
  create_user_missing_field [("name", .str "A")] "surname" (by simp [userCreateRequired])
    rfl

/-- C8: one driver iteration — a stripped, lowercased input among
exit/quit/bye/stop terminates the loop; an empty stripped input re-prompts
without appending; any other input appends a user message, obtains a
completion, and appends and displays the returned assistant message; and at
startup an absent API key exits the process with the non-zero status 1. -/
theorem driver_loop_spec
    (client : List Message → List Message × Except PyErr Message)
    (conversation : List Message) (raw_input : String) (api_key : Option String) :
    (exitKeywords.contains (pyLower (pyStrip raw_input)) = true →
      main_loop_step client conversation raw_input = .exitLoop) ∧
    (pyStrip raw_input = "" →
      main_loop_step client conversation raw_input = .reprompt) ∧
    (exitKeywords.contains (pyLower (pyStrip raw_input)) = false → pyStrip raw_input ≠ "" →
      ∀ conversation2 ai_response,
        client (conversation ++ [{ role := .user, content := pyStrip raw_input }]) =
          (conversation2, .ok ai_response) →
        main_loop_step client conversation raw_input =
          .replied (conversation2 ++ [ai_response]) ai_response.content) ∧
    (api_key = none → dunder_main api_key = .error 1 ∧ (1 : Nat) ≠ 0) := by
  refine ⟨?_, ?_, ?_, ?_⟩
  · intro hkw
    simp only [main_loop_step]
    rw [hkw]
    rfl
  · intro hempty
    simp only [main_loop_step]
    rw [hempty]
    rfl
  · intro hkw hne conversation2 ai_response hclient
    simp only [main_loop_step]
    rw [hkw]
    simp only [Bool.false_eq_true, if_false]
    rw [if_neg hne]
    rw [hclient]
  · intro hkey
    subst hkey
    exact ⟨rfl, by decide⟩

/-- C8 witness: "  EXIT " terminates; "   " re-prompts; "Hi" appends the user
message, and the returned assistant message "Hello" is appended and displayed;
an absent key exits with status 1. -/
theorem driver_loop_spec_witness :
    main_loop_step okClient [] "  EXIT " = .exitLoop ∧
    main_loop_step okClient [] "   " = .reprompt ∧
    main_loop_step okClient [] "Hi" =
      .replied [{ role := .user, content := "Hi" },
                { role := .ai, content := "Hello" }] "Hello" ∧
    (dunder_main none = .error 1 ∧ (1 : Nat) ≠ 0) :=
  ⟨(driver_loop_spec okClient [] "  EXIT " none).1 rfl,
   (driver_loop_spec okClient [] "   " none).2.1 rfl,
   (driver_loop_spec okClient [] "Hi" none).2.2.1 rfl (by decide)
     [{ role := .user, content := "Hi" }] { role := .ai, content := "Hello" } rfl,
   (driver_loop_spec okClient [] "Hi" none).2.2.2 rfl⟩

/-- C9: an exception raised by the completion client during a driver iteration
is caught: the step outcome displays the error text and continues the loop (it
is not `exitLoop`, and no exception propagates — `main_loop_step` is total). -/
theorem driver_catches_client_errors
    (client : List Message → List Message × Except PyErr Message)
    (conversation : List Message) (raw_input : String)
    (hkw : exitKeywords.contains (pyLower (pyStrip raw_input)) = false)
    (hne : pyStrip raw_input ≠ "")
    (conversation2 : List Message) (e : PyErr)
    (hclient : client (conversation ++ [{ role := .user, content := pyStrip raw_input }]) =
      (conversation2, .error e)) :
    main_loop_step client conversation raw_input = .errored conversation2 (pyErrStr e) ∧
    main_loop_step client conversation raw_input ≠ .exitLoop := by
  have hstep : main_loop_step client conversation raw_input =
      .errored conversation2 (pyErrStr e) := by
    simp only [main_loop_step]
    rw [hkw]
    simp only [Bool.false_eq_true, if_false]
    rw [if_neg hne]
    rw [hclient]
  exact ⟨hstep, by rw [hstep]; intro h; cases h⟩

/-- C9 witness: a client raising an API error makes the step display the error
and continue. -/
theorem driver_catches_client_errors_witness :
    main_loop_step errClient [] "Hi" =
      .errored [{ role := .user, content := "Hi" }]
        (pyErrStr (.apiError 500 "Internal Server Error")) ∧
    main_loop_step errClient [] "Hi" ≠ .exitLoop :=
  driver_catches_client_errors errClient [] "Hi" rfl (by decide)
    [{ role := .user, content := "Hi" }] (.apiError 500 "Internal Server Error") rfl
